import Mathlib

/-!
Shallow embedding of the analysis-request handler of AI-VISION-GLASSES-V1
(`ai-vision-glasses-v1/App.js`).  The component state held by the `App`
function (the mock flag, the transport flag, the endpoint URL) is modelled
as a `Config` record; the state setters, the speech sink, the simulated
latency and the network call are modelled as an explicit trace of
`Effect`s; the behaviour of the remote endpoint (and of the transport
layer) is an oracle value `FetchBehavior` supplied to the function.  The
body of the `try` block of `analyzeImage` is embedded as a computation
returning `Except JsError`, and the surrounding `catch` is the match at
the end of `analyzeImage`, so that the Lean type of `analyzeImage` itself
witnesses that no exception escapes the handler.
-/

namespace AIVisionGlasses

/-- Component state read by `analyzeImage`: `useMock`, `sendAsFormData`
and `endpoint` are the React state slots of the same names; the flag
`speechAvailable` models the platform test in `speakText`
(`Platform.OS === web` and `speechSynthesis in window`). -/
structure Config where
  useMock : Bool
  sendAsFormData : Bool
  endpoint : String
  speechAvailable : Bool
  deriving DecidableEq

/-- The observable UI state slots written by `analyzeImage`
(`processing`, `resultText`, `lastError`). -/
structure UIState where
  processing : Bool
  resultText : String
  lastError : Option String
  deriving DecidableEq

/-- Transport mode of the single network call: multipart form data or a
JSON body, selected by `sendAsFormData`. -/
inductive BodyMode where
  | formData
  | json
  deriving DecidableEq

/-- The one network request issued on the live path, with the request
body fields `image_base64` and `prompt`. -/
structure NetRequest where
  url : String
  httpMethod : String
  bodyMode : BodyMode
  contentTypeHeader : Option String
  image_base64 : String
  prompt : String
  deriving DecidableEq

/-- One observable side effect of a run of `analyzeImage`: a state-setter
call, a speech-sink interaction, a console line, the simulated latency
wait, or the network request. -/
inductive Effect where
  | setProcessing (b : Bool)
  | setResultText (s : String)
  | setLastError (e : Option String)
  | cancelSpeech
  | speak (s : String)
  | log (s : String)
  | logError (s : String)
  | sleep (ms : Nat)
  | netRequest (r : NetRequest)
  deriving DecidableEq

/-- A JavaScript error value: its constructor name and its `message`. -/
structure JsError where
  name : String
  message : String
  deriving DecidableEq

/-- JavaScript `String(err)` applied to an `Error` value: the name alone
when the message is empty, otherwise `name ++ ": " ++ message`. -/
def jsErrorToString (e : JsError) : String :=
  if e.message = "" then e.name else e.name ++ ": " ++ e.message

/-- The parsed JSON response body, restricted to the two fields the code
reads (`spoken_text` and `text`); a missing field is `none`. -/
structure RespJson where
  spoken_text : Option String
  text : Option String
  deriving DecidableEq

/-- Oracle describing what the environment does for the live network
call: either `fetch` itself rejects, or a response arrives with a status
code, a body-as-text outcome (`resp.text()`) and a body-as-JSON outcome
(`resp.json()`), each of which may itself raise. -/
inductive FetchBehavior where
  | throwErr (e : JsError)
  | respond (status : Nat) (bodyText : Except JsError String)
      (json : Except JsError RespJson)

/-- `resp.ok` of the fetch API: status in the range 200 to 299. -/
def respOk (status : Nat) : Bool :=
  decide (200 ≤ status) && decide (status ≤ 299)

/-- JavaScript truthiness-based choice `a || b` specialised to strings:
the empty string is falsy. -/
def jsOr (a b : String) : String :=
  if a = "" then b else a

/-- Embedding of `json?.spoken_text || json?.text || "No description
available."`: a missing field behaves like the empty string (both are
falsy), and the last alternative is the fixed default. -/
def extractSpoken (j : RespJson) : String :=
  jsOr (j.spoken_text.getD "") (jsOr (j.text.getD "") "No description available.")

/-- The fixed canned description returned by the mock path. -/
def mockMessage : String :=
  "Mock: person 2m ahead, chair to your right, sign reads \x27Exit\x27."

/-- The fixed guidance message of the unconfigured-endpoint path. -/
def noEndpointMsg : String :=
  "No endpoint configured. Set endpoint URL and disable mock mode to call your server."

/-- The fixed instructional prompt sent with every live request
(the `prompt` template literal in `analyzeImage`). -/
def promptText : String :=
  "You are an assistant for visually impaired users. Provide a short, prioritized spoken description of the scene. Include detected objects, text (if any) and useful navigation cues. Keep it concise (max 40 words). Prioritize immediate obstacles and person presence."

/-- Embedding of `speakText`: an empty string is ignored; when the web
speech API is available the current utterance is cancelled and the text
spoken; otherwise the text is logged (the console fallback). -/
def speakText (speechAvailable : Bool) (text : String) : List Effect :=
  if text = "" then []
  else if speechAvailable then [Effect.cancelSpeech, Effect.speak text]
  else [Effect.log text]

/-- The request built on the live path: a POST to the configured URL,
either multipart form data or a JSON body with the content type header,
in both cases with fields `image_base64` (the argument coerced to a
string, `base64 || empty`) and `prompt`. -/
def buildRequest (cfg : Config) (base64 : Option String) : NetRequest :=
  if cfg.sendAsFormData then
    { url := cfg.endpoint, httpMethod := "POST", bodyMode := BodyMode.formData,
      contentTypeHeader := none, image_base64 := base64.getD "",
      prompt := promptText }
  else
    { url := cfg.endpoint, httpMethod := "POST", bodyMode := BodyMode.json,
      contentTypeHeader := some "application/json", image_base64 := base64.getD "",
      prompt := promptText }

/-- The body of the `try` block of the live path: set the processing
flag, issue the single fetch, and either throw (`Except.error`) — on a
fetch rejection, a non-ok status (after reading the body text, throwing
`Server error <status>: <body>`), or a JSON parse failure — or extract
the spoken text, record and speak it, clear the processing flag, and
return it. -/
def liveTry (cfg : Config) (base64 : Option String) (net : FetchBehavior) :
    List Effect × Except JsError String :=
  let req := buildRequest cfg base64
  match net with
  | FetchBehavior.throwErr e =>
      ([Effect.setProcessing true, Effect.netRequest req], Except.error e)
  | FetchBehavior.respond status bodyText json =>
      if respOk status then
        match json with
        | Except.error e =>
            ([Effect.setProcessing true, Effect.netRequest req], Except.error e)
        | Except.ok j =>
            let spoken := extractSpoken j
            ([Effect.setProcessing true, Effect.netRequest req,
                Effect.setResultText spoken]
              ++ speakText cfg.speechAvailable spoken
              ++ [Effect.setProcessing false],
             Except.ok spoken)
      else
        match bodyText with
        | Except.error e =>
            ([Effect.setProcessing true, Effect.netRequest req], Except.error e)
        | Except.ok t =>
            ([Effect.setProcessing true, Effect.netRequest req],
             Except.error { name := "Error",
                            message := "Server error " ++ toString status ++ ": " ++ t })

/-- Result of one run of `analyzeImage`: the returned string, whether the
run completed without entering the `catch` handler, and the trace of
observable side effects in order. -/
structure AnalyzeOut where
  ret : String
  succeeded : Bool
  effects : List Effect
  deriving DecidableEq

/-- Embedding of `analyzeImage(base64, { forceMock })`.  The mode is the
`forceMock` override when it is a boolean, otherwise the configured
`useMock`; the run first clears `lastError` and `resultText`, then takes
exactly one of the three paths; the `catch` handler of the live path is
the `Except.error` match arm, which converts the raised error into a
normal return value. -/
def analyzeImage (cfg : Config) (base64 : Option String) (forceMock : Option Bool)
    (net : FetchBehavior) : AnalyzeOut :=
  let useMockMode := forceMock.getD cfg.useMock
  let eff0 : List Effect := [Effect.setLastError none, Effect.setResultText ""]
  if useMockMode then
    { ret := mockMessage, succeeded := true,
      effects := eff0
        ++ [Effect.setProcessing true, Effect.sleep 500,
            Effect.setResultText mockMessage]
        ++ speakText cfg.speechAvailable mockMessage
        ++ [Effect.setProcessing false] }
  else if cfg.endpoint = "" then
    { ret := noEndpointMsg, succeeded := true,
      effects := eff0 ++ [Effect.setResultText noEndpointMsg]
        ++ speakText cfg.speechAvailable noEndpointMsg }
  else
    match liveTry cfg base64 net with
    | (effs, Except.ok spoken) =>
        { ret := spoken, succeeded := true, effects := eff0 ++ effs }
    | (effs, Except.error err) =>
        { ret := "Analysis failed: " ++
            (if err.message = "" then jsErrorToString err else err.message),
          succeeded := false,
          effects := eff0 ++ effs
            ++ [Effect.logError ("analyzeImage failed " ++ jsErrorToString err),
                Effect.setLastError (some (jsErrorToString err)),
                Effect.setResultText "Analysis failed. See debug.",
                Effect.setProcessing false] }

/-- Apply one effect to the UI state (speech, console and latency
effects do not touch the state slots). -/
def applyEffect (s : UIState) : Effect → UIState
  | Effect.setProcessing b => { s with processing := b }
  | Effect.setResultText t => { s with resultText := t }
  | Effect.setLastError e => { s with lastError := e }
  | _ => s

/-- Replay a trace of effects over an initial UI state. -/
def runEffects (s : UIState) (l : List Effect) : UIState :=
  List.foldl applyEffect s l

/-- The network requests appearing in a trace, in order. -/
def netRequests (l : List Effect) : List NetRequest :=
  l.filterMap fun e => match e with
    | Effect.netRequest r => some r
    | _ => none

/-- The strings handed to the speech sink in a trace, in order. -/
def speaks (l : List Effect) : List String :=
  l.filterMap fun e => match e with
    | Effect.speak s => some s
    | _ => none

/-- The successive values written to the processing flag in a trace. -/
def processingToggles (l : List Effect) : List Bool :=
  l.filterMap fun e => match e with
    | Effect.setProcessing b => some b
    | _ => none

/-- Whether the live path raises: the fetch rejects, the status is not
ok (the body-text read raises or the server error is thrown), or the
JSON parse raises. -/
def liveThrows : FetchBehavior → Bool
  | FetchBehavior.throwErr _ => true
  | FetchBehavior.respond status _ json =>
      if respOk status then
        match json with
        | Except.error _ => true
        | Except.ok _ => false
      else true

/-! Helper lemmas. -/

theorem mockMessage_ne_empty : ¬ mockMessage = "" := by decide

theorem noEndpointMsg_ne_empty : ¬ noEndpointMsg = "" := by decide

theorem speakText_of_ne_empty (avail : Bool) (m : String) (h : ¬ m = "") :
    speakText avail m =
      if avail then [Effect.cancelSpeech, Effect.speak m] else [Effect.log m] := by
  simp [speakText, h]

theorem extractSpoken_ne_empty (j : RespJson) : ¬ extractSpoken j = "" := by
  unfold extractSpoken jsOr
  split
  · split
    · decide
    · assumption
  · assumption

theorem analyzeImage_mock (cfg : Config) (b : Option String) (fm : Option Bool)
    (net : FetchBehavior) (h : fm.getD cfg.useMock = true) :
    analyzeImage cfg b fm net =
      { ret := mockMessage, succeeded := true,
        effects := [Effect.setLastError none, Effect.setResultText "",
            Effect.setProcessing true, Effect.sleep 500,
            Effect.setResultText mockMessage]
          ++ speakText cfg.speechAvailable mockMessage
          ++ [Effect.setProcessing false] } := by
  simp [analyzeImage, h]

theorem analyzeImage_noEndpoint (cfg : Config) (b : Option String) (fm : Option Bool)
    (net : FetchBehavior) (h : fm.getD cfg.useMock = false) (he : cfg.endpoint = "") :
    analyzeImage cfg b fm net =
      { ret := noEndpointMsg, succeeded := true,
        effects := [Effect.setLastError none, Effect.setResultText "",
            Effect.setResultText noEndpointMsg]
          ++ speakText cfg.speechAvailable noEndpointMsg } := by
  simp [analyzeImage, h, he]

theorem analyzeImage_live_ok (cfg : Config) (b : Option String) (fm : Option Bool)
    (net : FetchBehavior) (h : fm.getD cfg.useMock = false)
    (he : ¬ cfg.endpoint = "") (effs : List Effect) (spoken : String)
    (hl : liveTry cfg b net = (effs, Except.ok spoken)) :
    analyzeImage cfg b fm net =
      { ret := spoken, succeeded := true,
        effects := [Effect.setLastError none, Effect.setResultText ""] ++ effs } := by
  simp [analyzeImage, h, he, hl]

theorem analyzeImage_live_err (cfg : Config) (b : Option String) (fm : Option Bool)
    (net : FetchBehavior) (h : fm.getD cfg.useMock = false)
    (he : ¬ cfg.endpoint = "") (effs : List Effect) (err : JsError)
    (hl : liveTry cfg b net = (effs, Except.error err)) :
    analyzeImage cfg b fm net =
      { ret := "Analysis failed: " ++
          (if err.message = "" then jsErrorToString err else err.message),
        succeeded := false,
        effects := [Effect.setLastError none, Effect.setResultText ""] ++ effs
          ++ [Effect.logError ("analyzeImage failed " ++ jsErrorToString err),
              Effect.setLastError (some (jsErrorToString err)),
              Effect.setResultText "Analysis failed. See debug.",
              Effect.setProcessing false] } := by
  simp [analyzeImage, h, he, hl]

theorem liveTry_throwErr (cfg : Config) (b : Option String) (e : JsError) :
    liveTry cfg b (FetchBehavior.throwErr e) =
      ([Effect.setProcessing true, Effect.netRequest (buildRequest cfg b)],
        Except.error e) := rfl

theorem liveTry_ok_json (cfg : Config) (b : Option String) (st : Nat)
    (bt : Except JsError String) (j : RespJson) (h : respOk st = true) :
    liveTry cfg b (FetchBehavior.respond st bt (Except.ok j)) =
      ([Effect.setProcessing true, Effect.netRequest (buildRequest cfg b),
          Effect.setResultText (extractSpoken j)]
        ++ speakText cfg.speechAvailable (extractSpoken j)
        ++ [Effect.setProcessing false],
       Except.ok (extractSpoken j)) := by
  simp [liveTry, h]

theorem liveTry_json_err (cfg : Config) (b : Option String) (st : Nat)
    (bt : Except JsError String) (e : JsError) (h : respOk st = true) :
    liveTry cfg b (FetchBehavior.respond st bt (Except.error e)) =
      ([Effect.setProcessing true, Effect.netRequest (buildRequest cfg b)],
        Except.error e) := by
  simp [liveTry, h]

theorem liveTry_bad_status (cfg : Config) (b : Option String) (st : Nat)
    (t : String) (json : Except JsError RespJson) (h : respOk st = false) :
    liveTry cfg b (FetchBehavior.respond st (Except.ok t) json) =
      ([Effect.setProcessing true, Effect.netRequest (buildRequest cfg b)],
        Except.error { name := "Error",
                       message := "Server error " ++ toString st ++ ": " ++ t }) := by
  simp [liveTry, h]

theorem liveTry_bad_status_text_err (cfg : Config) (b : Option String) (st : Nat)
    (e : JsError) (json : Except JsError RespJson) (h : respOk st = false) :
    liveTry cfg b (FetchBehavior.respond st (Except.error e) json) =
      ([Effect.setProcessing true, Effect.netRequest (buildRequest cfg b)],
        Except.error e) := by
  simp [liveTry, h]

/-! Claim theorems. -/

/-- C1: for every input configuration, image payload, mode flag and
transport behaviour, `analyzeImage` returns a normal result value on all
three paths; a failure is encoded as `succeeded = false` together with a
message string, never as a raised exception (the live body is the only
raising computation and its error is converted by the catch arm). -/
theorem c1_analyze_never_throws (cfg : Config) (b : Option String)
    (fm : Option Bool) (net : FetchBehavior) :
    (analyzeImage cfg b fm net).succeeded = true ∨
      ((analyzeImage cfg b fm net).succeeded = false ∧
        ∃ m, (analyzeImage cfg b fm net).ret = "Analysis failed: " ++ m) := by
  cases hm : fm.getD cfg.useMock with
  | true =>
    rw [analyzeImage_mock cfg b fm net hm]
    exact Or.inl rfl
  | false =>
    by_cases he : cfg.endpoint = ""
    · rw [analyzeImage_noEndpoint cfg b fm net hm he]
      exact Or.inl rfl
    · rcases hl : liveTry cfg b net with ⟨effs, e | s⟩
      · rw [analyzeImage_live_err cfg b fm net hm he effs e hl]
        exact Or.inr ⟨rfl, _, rfl⟩
      · rw [analyzeImage_live_ok cfg b fm net hm he effs s hl]
        exact Or.inl rfl

/-- C2: with `forceMock = true`, for every image payload, endpoint
configuration and transport behaviour, the run succeeds, returns exactly
the fixed canned description (which begins with the mock prefix), issues
no network request, and waits the fixed 500 ms simulated latency. -/
theorem c2_force_mock (cfg : Config) (b : Option String) (net : FetchBehavior) :
    (analyzeImage cfg b (some true) net).succeeded = true ∧
      (analyzeImage cfg b (some true) net).ret = mockMessage ∧
      (∃ rest, mockMessage = "Mock:" ++ rest) ∧
      netRequests (analyzeImage cfg b (some true) net).effects = [] ∧
      Effect.sleep 500 ∈ (analyzeImage cfg b (some true) net).effects := by
  rw [analyzeImage_mock cfg b (some true) net rfl,
    speakText_of_ne_empty _ _ mockMessage_ne_empty]
  refine ⟨rfl, rfl,
    ⟨" person 2m ahead, chair to your right, sign reads \x27Exit\x27.", rfl⟩,
    ?_, ?_⟩ <;> cases cfg.speechAvailable <;> simp [netRequests]

/-- C3: with `forceMock = false` and an empty configured endpoint, for
every image payload and transport behaviour, the run returns the fixed
guidance message (which starts with the phrase `No endpoint configured`)
as a success, issues no network request, and performs no latency wait. -/
theorem c3_no_endpoint (cfg : Config) (b : Option String) (net : FetchBehavior)
    (he : cfg.endpoint = "") :
    (analyzeImage cfg b (some false) net).succeeded = true ∧
      (analyzeImage cfg b (some false) net).ret = noEndpointMsg ∧
      (∃ rest, noEndpointMsg = "No endpoint configured" ++ rest) ∧
      netRequests (analyzeImage cfg b (some false) net).effects = [] ∧
      (∀ ms, Effect.sleep ms ∉ (analyzeImage cfg b (some false) net).effects) := by
  rw [analyzeImage_noEndpoint cfg b (some false) net rfl he,
    speakText_of_ne_empty _ _ noEndpointMsg_ne_empty]
  refine ⟨rfl, rfl,
    ⟨". Set endpoint URL and disable mock mode to call your server.", rfl⟩,
    ?_, ?_⟩ <;> cases cfg.speechAvailable <;> simp [netRequests]

/-- Witness for C3 at a concrete unconfigured state. -/
theorem c3_no_endpoint_witness :
    (analyzeImage ⟨false, false, "", true⟩ (some "dummy-base64") (some false)
        (FetchBehavior.throwErr ⟨"TypeError", "x"⟩)).ret = noEndpointMsg :=
  (c3_no_endpoint ⟨false, false, "", true⟩ (some "dummy-base64")
      (FetchBehavior.throwErr ⟨"TypeError", "x"⟩) rfl).2.1

/-- C4 counterexample: a live 2xx response whose body sets `spoken_text`
to the empty string is a response body containing `spoken_text` with a
value X (namely the empty string), yet the run does not return that X:
the JavaScript or-chain treats the empty string as falsy and falls
through to the fixed default, so the claim as stated fails at this
input. -/
theorem c4_empty_spoken_text_counterexample :
    (analyzeImage ⟨false, false, "http://x", true⟩ (some "img") (some false)
        (FetchBehavior.respond 200 (Except.ok "")
          (Except.ok ⟨some "", none⟩))).ret = "No description available." ∧
      ¬ (analyzeImage ⟨false, false, "http://x", true⟩ (some "img") (some false)
        (FetchBehavior.respond 200 (Except.ok "")
          (Except.ok ⟨some "", none⟩))).ret = "" := by
  constructor <;> decide

/-- C4 (amended): on the live path with an ok (2xx) response, the field
names are tried in priority order, `spoken_text` first and then `text`,
treating the empty string like a missing field: for every non-empty
value X of `spoken_text` the run succeeds and returns exactly X whatever
the `text` field holds; when `spoken_text` is missing or empty and
`text` carries a non-empty value Y, the run succeeds and returns exactly
Y; and for every body in which both fields are missing or empty the run
returns the fixed default string. -/
theorem c4_live_extract (cfg : Config) (b : Option String) (X Y : String)
    (bt bt2 bt3 : Except JsError String) (t2 sp sp2 t3 : Option String)
    (st : Nat) (hep : ¬ cfg.endpoint = "") (hX : ¬ X = "") (hY : ¬ Y = "")
    (hsp : sp.getD "" = "") (hsp2 : sp2.getD "" = "") (ht3 : t3.getD "" = "")
    (hst : respOk st = true) :
    (analyzeImage cfg b (some false)
        (FetchBehavior.respond st bt (Except.ok ⟨some X, t2⟩))).succeeded = true ∧
      (analyzeImage cfg b (some false)
        (FetchBehavior.respond st bt (Except.ok ⟨some X, t2⟩))).ret = X ∧
      (analyzeImage cfg b (some false)
        (FetchBehavior.respond st bt2 (Except.ok ⟨sp, some Y⟩))).succeeded = true ∧
      (analyzeImage cfg b (some false)
        (FetchBehavior.respond st bt2 (Except.ok ⟨sp, some Y⟩))).ret = Y ∧
      (analyzeImage cfg b (some false)
        (FetchBehavior.respond st bt3 (Except.ok ⟨sp2, t3⟩))).ret
        = "No description available." := by
  rw [analyzeImage_live_ok cfg b (some false)
      (FetchBehavior.respond st bt (Except.ok ⟨some X, t2⟩)) rfl hep _ _
      (liveTry_ok_json cfg b st bt ⟨some X, t2⟩ hst),
    analyzeImage_live_ok cfg b (some false)
      (FetchBehavior.respond st bt2 (Except.ok ⟨sp, some Y⟩)) rfl hep _ _
      (liveTry_ok_json cfg b st bt2 ⟨sp, some Y⟩ hst),
    analyzeImage_live_ok cfg b (some false)
      (FetchBehavior.respond st bt3 (Except.ok ⟨sp2, t3⟩)) rfl hep _ _
      (liveTry_ok_json cfg b st bt3 ⟨sp2, t3⟩ hst)]
  refine ⟨rfl, ?_, rfl, ?_, ?_⟩
  · simp [extractSpoken, jsOr, hX]
  · simp [extractSpoken, jsOr, hsp, hY]
  · simp [extractSpoken, jsOr, hsp2, ht3]

/-- Witness for C4 (amended) at concrete 200 responses: `spoken_text`
wins over `text` when non-empty, an empty `spoken_text` falls through to
a non-empty `text`, and a body with an empty `spoken_text` and an empty
`text` yields the default. -/
theorem c4_live_extract_witness :
    (analyzeImage ⟨false, false, "http://x", true⟩ (some "img") (some false)
        (FetchBehavior.respond 200 (Except.ok "")
          (Except.ok ⟨some "X", some "other"⟩))).ret = "X" ∧
      (analyzeImage ⟨false, false, "http://x", true⟩ (some "img") (some false)
        (FetchBehavior.respond 200 (Except.ok "")
          (Except.ok ⟨some "", some "Y"⟩))).ret = "Y" ∧
      (analyzeImage ⟨false, false, "http://x", true⟩ (some "img") (some false)
        (FetchBehavior.respond 200 (Except.ok "")
          (Except.ok ⟨none, some ""⟩))).ret = "No description available." :=
  ⟨(c4_live_extract ⟨false, false, "http://x", true⟩ (some "img") "X" "Y"
      (Except.ok "") (Except.ok "") (Except.ok "")
      (some "other") (some "") none (some "") 200
      (by decide) (by decide) (by decide) rfl rfl rfl (by decide)).2.1,
    (c4_live_extract ⟨false, false, "http://x", true⟩ (some "img") "X" "Y"
      (Except.ok "") (Except.ok "") (Except.ok "")
      (some "other") (some "") none (some "") 200
      (by decide) (by decide) (by decide) rfl rfl rfl (by decide)).2.2.2.1,
    (c4_live_extract ⟨false, false, "http://x", true⟩ (some "img") "X" "Y"
      (Except.ok "") (Except.ok "") (Except.ok "")
      (some "other") (some "") none (some "") 200
      (by decide) (by decide) (by decide) rfl rfl rfl (by decide)).2.2.2.2⟩

theorem serverMsg_ne_empty (st : Nat) (B : String) :
    ¬ ("Server error " ++ toString st ++ ": " ++ B) = "" := by
  intro h
  have hl := congrArg String.length h
  simp only [String.length_append] at hl
  have h13 : ("Server error " : String).length = 13 := rfl
  have h0 : ("" : String).length = 0 := rfl
  omega

/-- C5: on the live path, every response with a non-ok status (outside
200 to 299) and body text B yields a failed run: `succeeded` is false,
the fixed failure message is written to the result text, the returned
string carries the server error message, and the error detail retains
the raw status code together with the body. -/
theorem c5_http_error (cfg : Config) (b : Option String) (st : Nat) (B : String)
    (json : Except JsError RespJson) (s0 : UIState)
    (hep : ¬ cfg.endpoint = "") (hst : respOk st = false) :
    (analyzeImage cfg b (some false)
        (FetchBehavior.respond st (Except.ok B) json)).succeeded = false ∧
      (analyzeImage cfg b (some false)
        (FetchBehavior.respond st (Except.ok B) json)).ret
        = "Analysis failed: " ++ ("Server error " ++ toString st ++ ": " ++ B) ∧
      (runEffects s0 (analyzeImage cfg b (some false)
        (FetchBehavior.respond st (Except.ok B) json)).effects).resultText
        = "Analysis failed. See debug." ∧
      (runEffects s0 (analyzeImage cfg b (some false)
        (FetchBehavior.respond st (Except.ok B) json)).effects).lastError
        = some ("Error: " ++ ("Server error " ++ toString st ++ ": " ++ B)) := by
  rw [analyzeImage_live_err cfg b (some false)
      (FetchBehavior.respond st (Except.ok B) json) rfl hep _ _
      (liveTry_bad_status cfg b st B json hst)]
  have hmsg := serverMsg_ne_empty st B
  refine ⟨rfl, ?_, ?_, ?_⟩ <;>
    simp [runEffects, applyEffect, jsErrorToString, hmsg]

/-- Witness for C5 at status 500 with body `oops`. -/
theorem c5_http_error_witness :
    (analyzeImage ⟨false, false, "http://x", true⟩ (some "img") (some false)
        (FetchBehavior.respond 500 (Except.ok "oops")
          (Except.ok ⟨none, none⟩))).succeeded = false :=
  (c5_http_error ⟨false, false, "http://x", true⟩ (some "img") 500 "oops"
      (Except.ok ⟨none, none⟩) ⟨false, "", none⟩ (by decide) (by decide)).1

/-- C6 counterexample: on the live path with a rejected fetch (speech
available), the run produces a non-empty result string, yet nothing at
all is handed to the speech sink — in particular the fixed failure
message is not spoken, contradicting the claim that only that message is
spoken on the exception path. -/
theorem c6_failure_not_spoken_counterexample :
    speaks (analyzeImage ⟨false, false, "http://x", true⟩ (some "img") (some false)
        (FetchBehavior.throwErr ⟨"TypeError", "Failed to fetch"⟩)).effects = [] ∧
      ¬ (analyzeImage ⟨false, false, "http://x", true⟩ (some "img") (some false)
        (FetchBehavior.throwErr ⟨"TypeError", "Failed to fetch"⟩)).ret = "" := by
  constructor <;> decide

/-- C6 (amended): when speech is available, every successful run hands
exactly its returned string to the speech sink, cancelling the current
utterance immediately before speaking; a failed run (the catch path of
the live branch) speaks nothing at all — neither the captured detail nor
any failure message. -/
theorem c6_speech_behavior (cfg : Config) (b : Option String) (fm : Option Bool)
    (net : FetchBehavior) (hav : cfg.speechAvailable = true) :
    ((analyzeImage cfg b fm net).succeeded = true →
        List.IsInfix
          [Effect.cancelSpeech, Effect.speak (analyzeImage cfg b fm net).ret]
          (analyzeImage cfg b fm net).effects) ∧
      ((analyzeImage cfg b fm net).succeeded = false →
        speaks (analyzeImage cfg b fm net).effects = []) := by
  cases hm : fm.getD cfg.useMock with
  | true =>
    rw [analyzeImage_mock cfg b fm net hm,
      speakText_of_ne_empty _ _ mockMessage_ne_empty, hav, if_pos rfl]
    refine ⟨fun _ => ?_, fun h => by simp at h⟩
    exact ⟨[Effect.setLastError none, Effect.setResultText "",
        Effect.setProcessing true, Effect.sleep 500,
        Effect.setResultText mockMessage],
      [Effect.setProcessing false], by simp⟩
  | false =>
    by_cases he : cfg.endpoint = ""
    · rw [analyzeImage_noEndpoint cfg b fm net hm he,
        speakText_of_ne_empty _ _ noEndpointMsg_ne_empty, hav, if_pos rfl]
      refine ⟨fun _ => ?_, fun h => by simp at h⟩
      exact ⟨[Effect.setLastError none, Effect.setResultText "",
          Effect.setResultText noEndpointMsg], [], by simp⟩
    · cases net with
      | throwErr e =>
        rw [analyzeImage_live_err cfg b fm _ hm he _ _ (liveTry_throwErr cfg b e)]
        exact ⟨fun h => by simp at h, fun _ => rfl⟩
      | respond st bt json =>
        cases hst : respOk st with
        | true =>
          cases json with
          | ok j =>
            rw [analyzeImage_live_ok cfg b fm _ hm he _ _
                (liveTry_ok_json cfg b st bt j hst),
              speakText_of_ne_empty _ _ (extractSpoken_ne_empty j), hav, if_pos rfl]
            refine ⟨fun _ => ?_, fun h => by simp at h⟩
            exact ⟨[Effect.setLastError none, Effect.setResultText "",
                Effect.setProcessing true,
                Effect.netRequest (buildRequest cfg b),
                Effect.setResultText (extractSpoken j)],
              [Effect.setProcessing false], by simp⟩
          | error e =>
            rw [analyzeImage_live_err cfg b fm _ hm he _ _
                (liveTry_json_err cfg b st bt e hst)]
            exact ⟨fun h => by simp at h, fun _ => rfl⟩
        | false =>
          cases bt with
          | ok t =>
            rw [analyzeImage_live_err cfg b fm _ hm he _ _
                (liveTry_bad_status cfg b st t json hst)]
            exact ⟨fun h => by simp at h, fun _ => rfl⟩
          | error e =>
            rw [analyzeImage_live_err cfg b fm _ hm he _ _
                (liveTry_bad_status_text_err cfg b st e json hst)]
            exact ⟨fun h => by simp at h, fun _ => rfl⟩

/-- Witness for C6 (amended) on a concrete successful mock run with
speech available. -/
theorem c6_speech_behavior_witness :
    List.IsInfix [Effect.cancelSpeech, Effect.speak
        (analyzeImage ⟨true, false, "", true⟩ (some "img") none
          (FetchBehavior.throwErr ⟨"E", "m"⟩)).ret]
      (analyzeImage ⟨true, false, "", true⟩ (some "img") none
        (FetchBehavior.throwErr ⟨"E", "m"⟩)).effects :=
  (c6_speech_behavior ⟨true, false, "", true⟩ (some "img") none
      (FetchBehavior.throwErr ⟨"E", "m"⟩) rfl).1 (by decide)

/-- C7: the mock path and the live path (whatever the transport does)
write the processing flag exactly twice, true then false; the
unconfigured-endpoint path never writes it, leaving the observable flag
unchanged from any starting state. -/
theorem c7_processing_flag (cfg : Config) (b : Option String) (fm : Option Bool)
    (net : FetchBehavior) (s0 : UIState) :
    (fm.getD cfg.useMock = true →
        processingToggles (analyzeImage cfg b fm net).effects = [true, false]) ∧
      (fm.getD cfg.useMock = false → ¬ cfg.endpoint = "" →
        processingToggles (analyzeImage cfg b fm net).effects = [true, false]) ∧
      (fm.getD cfg.useMock = false → cfg.endpoint = "" →
        processingToggles (analyzeImage cfg b fm net).effects = [] ∧
        (runEffects s0 (analyzeImage cfg b fm net).effects).processing
          = s0.processing) := by
  refine ⟨fun hm => ?_, fun hm he => ?_, fun hm he => ?_⟩
  · rw [analyzeImage_mock cfg b fm net hm,
      speakText_of_ne_empty _ _ mockMessage_ne_empty]
    cases cfg.speechAvailable <;> simp [processingToggles]
  · cases net with
    | throwErr e =>
      rw [analyzeImage_live_err cfg b fm _ hm he _ _ (liveTry_throwErr cfg b e)]
      rfl
    | respond st bt json =>
      cases hst : respOk st with
      | true =>
        cases json with
        | ok j =>
          rw [analyzeImage_live_ok cfg b fm _ hm he _ _
              (liveTry_ok_json cfg b st bt j hst),
            speakText_of_ne_empty _ _ (extractSpoken_ne_empty j)]
          cases cfg.speechAvailable <;> simp [processingToggles]
        | error e =>
          rw [analyzeImage_live_err cfg b fm _ hm he _ _
              (liveTry_json_err cfg b st bt e hst)]
          rfl
      | false =>
        cases bt with
        | ok t =>
          rw [analyzeImage_live_err cfg b fm _ hm he _ _
              (liveTry_bad_status cfg b st t json hst)]
          rfl
        | error e =>
          rw [analyzeImage_live_err cfg b fm _ hm he _ _
              (liveTry_bad_status_text_err cfg b st e json hst)]
          rfl
  · rw [analyzeImage_noEndpoint cfg b fm net hm he,
      speakText_of_ne_empty _ _ noEndpointMsg_ne_empty]
    cases cfg.speechAvailable <;>
      simp [processingToggles, runEffects, applyEffect]

/-- Witness for C7 on a concrete mock run and a concrete unconfigured
run. -/
theorem c7_processing_flag_witness :
    processingToggles (analyzeImage ⟨true, false, "", true⟩ (some "img") none
        (FetchBehavior.throwErr ⟨"E", "m"⟩)).effects = [true, false] ∧
      processingToggles (analyzeImage ⟨false, false, "", true⟩ (some "img") none
        (FetchBehavior.throwErr ⟨"E", "m"⟩)).effects = [] :=
  ⟨(c7_processing_flag ⟨true, false, "", true⟩ (some "img") none
      (FetchBehavior.throwErr ⟨"E", "m"⟩) ⟨false, "", none⟩).1 rfl,
    ((c7_processing_flag ⟨false, false, "", true⟩ (some "img") none
      (FetchBehavior.throwErr ⟨"E", "m"⟩) ⟨false, "", none⟩).2.2 rfl rfl).1⟩

theorem netRequests_analyze_live (cfg : Config) (b : Option String)
    (fm : Option Bool) (net : FetchBehavior) (hm : fm.getD cfg.useMock = false)
    (he : ¬ cfg.endpoint = "") :
    netRequests (analyzeImage cfg b fm net).effects = [buildRequest cfg b] := by
  cases net with
  | throwErr e =>
    rw [analyzeImage_live_err cfg b fm _ hm he _ _ (liveTry_throwErr cfg b e)]
    rfl
  | respond st bt json =>
    cases hst : respOk st with
    | true =>
      cases json with
      | ok j =>
        rw [analyzeImage_live_ok cfg b fm _ hm he _ _
            (liveTry_ok_json cfg b st bt j hst),
          speakText_of_ne_empty _ _ (extractSpoken_ne_empty j)]
        cases cfg.speechAvailable <;> simp [netRequests]
      | error e =>
        rw [analyzeImage_live_err cfg b fm _ hm he _ _
            (liveTry_json_err cfg b st bt e hst)]
        rfl
    | false =>
      cases bt with
      | ok t =>
        rw [analyzeImage_live_err cfg b fm _ hm he _ _
            (liveTry_bad_status cfg b st t json hst)]
        rfl
      | error e =>
        rw [analyzeImage_live_err cfg b fm _ hm he _ _
            (liveTry_bad_status_text_err cfg b st e json hst)]
        rfl

theorem buildRequest_eq (cfg : Config) (b : Option String) :
    buildRequest cfg b =
      { url := cfg.endpoint, httpMethod := "POST",
        bodyMode := if cfg.sendAsFormData then BodyMode.formData else BodyMode.json,
        contentTypeHeader :=
          if cfg.sendAsFormData then none else some "application/json",
        image_base64 := b.getD "", prompt := promptText } := by
  cases h : cfg.sendAsFormData <;> simp [buildRequest, h]

/-- C8: on the live path, whatever the transport then does, exactly one
request appears in the trace: a POST to the configured URL whose body
carries the field `image_base64` and the fixed instructional prompt,
sent as multipart form data when the form-data flag is set (no explicit
content type) and as a JSON body with content type `application/json`
otherwise. -/
theorem c8_single_post (cfg : Config) (b : Option String) (net : FetchBehavior)
    (hep : ¬ cfg.endpoint = "") :
    netRequests (analyzeImage cfg b (some false) net).effects =
      [{ url := cfg.endpoint, httpMethod := "POST",
         bodyMode :=
           if cfg.sendAsFormData then BodyMode.formData else BodyMode.json,
         contentTypeHeader :=
           if cfg.sendAsFormData then none else some "application/json",
         image_base64 := b.getD "", prompt := promptText }] := by
  rw [netRequests_analyze_live cfg b (some false) net rfl hep, buildRequest_eq]

/-- Witness for C8 on a concrete JSON-mode live run. -/
theorem c8_single_post_witness :
    netRequests (analyzeImage ⟨false, false, "http://x", true⟩ (some "img")
        (some false) (FetchBehavior.throwErr ⟨"E", "m"⟩)).effects =
      [{ url := "http://x", httpMethod := "POST", bodyMode := BodyMode.json,
         contentTypeHeader := some "application/json", image_base64 := "img",
         prompt := promptText }] :=
  c8_single_post ⟨false, false, "http://x", true⟩ (some "img")
    (FetchBehavior.throwErr ⟨"E", "m"⟩) (by decide)

/-- C9: every request placed in the trace of a live run carries an
`image_base64` field that is a string equal to the argument coerced with
the empty-string default: in particular an absent (null or undefined)
image payload is sent as the empty string, not omitted. -/
theorem c9_image_base64_coerced (cfg : Config) (b : Option String)
    (net : FetchBehavior) (hep : ¬ cfg.endpoint = "") (r : NetRequest)
    (hr : r ∈ netRequests (analyzeImage cfg b (some false) net).effects) :
    r.image_base64 = b.getD "" ∧ (b = none → r.image_base64 = "") := by
  rw [netRequests_analyze_live cfg b (some false) net rfl hep] at hr
  rcases List.mem_singleton.mp hr with rfl
  constructor
  · cases h : cfg.sendAsFormData <;> simp [buildRequest, h]
  · intro hb
    cases h : cfg.sendAsFormData <;> simp [buildRequest, h, hb]

/-- Witness for C9 on a concrete live run with an absent image payload. -/
theorem c9_image_base64_coerced_witness :
    (buildRequest ⟨false, false, "http://x", true⟩ none).image_base64 = "" :=
  (c9_image_base64_coerced ⟨false, false, "http://x", true⟩ none
      (FetchBehavior.throwErr ⟨"E", "m"⟩) (by decide)
      (buildRequest ⟨false, false, "http://x", true⟩ none)
      (by rw [netRequests_analyze_live ⟨false, false, "http://x", true⟩ none
            (some false) (FetchBehavior.throwErr ⟨"E", "m"⟩) rfl (by decide)]
          exact List.mem_singleton.mpr rfl)).2 rfl

/-- C10: every run first clears the error detail to null and the result
text to empty (its first two effects), and at completion — from any
starting UI state — the error detail is non-null exactly when the run
took the live path and the transport, status check or parsing raised;
the mock and unconfigured-endpoint paths always leave it null. -/
theorem c10_error_detail (cfg : Config) (b : Option String) (fm : Option Bool)
    (net : FetchBehavior) (s0 : UIState) :
    (analyzeImage cfg b fm net).effects.take 2 =
        [Effect.setLastError none, Effect.setResultText ""] ∧
      (¬ (runEffects s0 (analyzeImage cfg b fm net).effects).lastError = none ↔
        (fm.getD cfg.useMock = false ∧ ¬ cfg.endpoint = "" ∧
          liveThrows net = true)) := by
  cases hm : fm.getD cfg.useMock with
  | true =>
    rw [analyzeImage_mock cfg b fm net hm,
      speakText_of_ne_empty _ _ mockMessage_ne_empty]
    exact ⟨rfl, by cases cfg.speechAvailable <;>
      simp [runEffects, applyEffect, hm]⟩
  | false =>
    by_cases he : cfg.endpoint = ""
    · rw [analyzeImage_noEndpoint cfg b fm net hm he,
        speakText_of_ne_empty _ _ noEndpointMsg_ne_empty]
      exact ⟨rfl, by cases cfg.speechAvailable <;>
        simp [runEffects, applyEffect, hm, he]⟩
    · cases net with
      | throwErr e =>
        rw [analyzeImage_live_err cfg b fm _ hm he _ _ (liveTry_throwErr cfg b e)]
        exact ⟨rfl, by simp [runEffects, applyEffect, hm, he, liveThrows]⟩
      | respond st bt json =>
        cases hst : respOk st with
        | true =>
          cases json with
          | ok j =>
            rw [analyzeImage_live_ok cfg b fm _ hm he _ _
                (liveTry_ok_json cfg b st bt j hst),
              speakText_of_ne_empty _ _ (extractSpoken_ne_empty j)]
            exact ⟨rfl, by cases cfg.speechAvailable <;>
              simp [runEffects, applyEffect, hm, he, liveThrows, hst]⟩
          | error e =>
            rw [analyzeImage_live_err cfg b fm _ hm he _ _
                (liveTry_json_err cfg b st bt e hst)]
            exact ⟨rfl, by simp [runEffects, applyEffect, hm, he, liveThrows, hst]⟩
        | false =>
          cases bt with
          | ok t =>
            rw [analyzeImage_live_err cfg b fm _ hm he _ _
                (liveTry_bad_status cfg b st t json hst)]
            exact ⟨rfl, by simp [runEffects, applyEffect, hm, he, liveThrows, hst]⟩
          | error e =>
            rw [analyzeImage_live_err cfg b fm _ hm he _ _
                (liveTry_bad_status_text_err cfg b st e json hst)]
            exact ⟨rfl, by simp [runEffects, applyEffect, hm, he, liveThrows, hst]⟩

end AIVisionGlasses
